import Mathlib

/-!
Formal verification of the Natours request-processing core
(`src/4-natours` plus the later revisions kept under `src/unnamed`).

The development shallowly embeds, directly from the JavaScript source:

* the User schema and its instance methods / query middleware
  (`src/unnamed/part_000`, the final revision of `user.model.js`);
* the `protectedRoute` authorization middleware and the `signUp` /
  `resetPassword` controllers (`src/4-natours/controllers/authController.js`,
  final revision);
* the `APIFeatures` query-refinement class
  (`src/4-natours/utils/apiFeatures.js`);
* the error-normalization layer
  (`src/4-natours/controllers/errorController.js` and
  `src/4-natours/utils/appError.js`);
* the Tour schema validators (`src/unnamed/part_002`, the final revision of
  `tour.model.js`).

External libraries (jsonwebtoken's `verify`, bcrypt, SHA-256, the
`validator.isEmail` predicate) are modelled as function parameters: the
theorems hold for every choice of these functions.  JavaScript machine
numbers appearing in the claims are integral (timestamps, page numbers,
HTTP statuses) and are modelled as `Nat`/`Int`; the Tour schema's numeric
fields (which carry values such as `4.5`) are modelled as `Rat`, which is
exact on every decimal literal the schema mentions and preserves order.
-/

namespace Natours

/-! ## JavaScript coercion helpers

`x || d` on strings treats `undefined` and the empty string as falsy;
on numbers it treats `undefined`, `NaN` and `0` as falsy.  `Option` encodes
`undefined` (for numbers, `none` also stands for `NaN`, which is falsy in
exactly the same contexts the source uses it in). -/

/-- JS `s || d` for a possibly-undefined string: `undefined` and `""` are
falsy and yield the default. -/
def jsOrString (v : Option String) (d : String) : String :=
  match v with
  | none => d
  | some s => if s = "" then d else s

/-- JS `n || d` for a possibly-undefined/NaN integral number: `undefined`,
`NaN` (both `none`) and `0` are falsy and yield the default. -/
def jsOrInt (v : Option Int) (d : Int) : Int :=
  match v with
  | none => d
  | some n => if n = 0 then d else n

/-- JS truthiness test for a possibly-undefined string (`!token` in the
source): `undefined` and `""` are falsy. -/
def jsFalsyString (v : Option String) : Bool :=
  match v with
  | none => true
  | some s => s = ""

/-- JS `s.startsWith(pre)`. -/
def jsStartsWith (s pre : String) : Bool :=
  pre.data.isPrefixOf s.data

/-- JS `s.split(sep)` for a single-character separator: every occurrence of
`sep` starts a new group, and the empty string splits to `[""]`. -/
def jsSplit (sep : Char) (s : String) : List String :=
  (s.data.foldr
    (fun c acc =>
      match acc with
      | [] => [[c]]
      | g :: gs => if c = sep then [] :: g :: gs else (c :: g) :: gs)
    [[]]).map String.mk

/-- Whitespace recognized by JS `Number` / `String.prototype.trim`
(restricted to the ASCII whitespace that can occur in this API's inputs). -/
def isJsSpace (c : Char) : Bool :=
  c = ' ' || c = '\t' || c = '\n' || c = '\r'

/-- Trim leading and trailing whitespace from a character list. -/
def trimChars (cs : List Char) : List Char :=
  ((cs.dropWhile isJsSpace).reverse.dropWhile isJsSpace).reverse

/-- Parse a list of decimal digits; `none` when empty or a non-digit occurs. -/
def digitsToNat? : List Char → Option Nat
  | [] => none
  | cs => cs.foldl
      (fun acc c =>
        match acc with
        | none => none
        | some n => if c.isDigit then some (n * 10 + (c.toNat - '0'.toNat)) else none)
      (some 0)

/-- JS `Number(s)` on the integral strings query parameters take: the empty
(or all-whitespace) string is `0`; an optional leading `-` followed by
decimal digits parses; anything else is `NaN` (`none`). -/
def jsNumberInt? (s : String) : Option Int :=
  match trimChars s.data with
  | [] => some 0
  | '-' :: rest => (digitsToNat? rest).map (fun n => -(n : Int))
  | cs => (digitsToNat? cs).map (fun n => (n : Int))

/-- JS `Number(v)` where `v` may be `undefined` (which gives `NaN`). -/
def jsNumberOpt? (v : Option String) : Option Int :=
  match v with
  | none => none
  | some s => jsNumberInt? s

/-! ## Data model: the User record

From `src/unnamed/part_000` (final revision of `user.model.js`).
`passwordChangedAt` and `passwordResetTokenExpires` are JS `Date` values,
held as milliseconds since the epoch (`Date.prototype.getTime` /
`Date.now()`).  `active` is `Option Bool` because the soft-delete query
middleware filters with `{ active: { $ne: false } }`, which also admits
documents where the field is unset. -/

structure StoredUser where
  id : Nat
  name : String
  email : String
  role : String
  /-- The bcrypt hash stored in the `password` field (never the plaintext). -/
  password : String
  passwordChangedAt : Option Nat
  passwordResetToken : Option String
  passwordResetTokenExpires : Option Nat
  active : Option Bool
  deriving DecidableEq, Repr

/-- The closed set of roles, from the `enum` in the User schema. -/
def roleValues : List String := ["user", "guide", "lead-guide", "admin"]

/-- `userSchema.methods.changedPasswordAfter` (`src/unnamed/part_000`
lines 162–177): when `passwordChangedAt` is set, truncate it to seconds
(`parseInt(getTime() / 1000)`) and report whether the JWT was issued
strictly before that; otherwise the password was never changed. -/
def changedPasswordAfter (u : StoredUser) (jwtTimestamp : Nat) : Bool :=
  match u.passwordChangedAt with
  | some t => jwtTimestamp < t / 1000
  | none => false

/-- The filter `userSchema.pre(/^find/)` adds (`src/unnamed/part_000`
lines 127–130): `{ active: { $ne: false } }`. -/
def activeNeFalse (u : StoredUser) : Bool :=
  u.active ≠ some false

/-- `User.findById(id)` as issued by `protectedRoute`: a `find`-family query,
so the soft-delete middleware's `active ≠ false` filter applies. -/
def findById (db : List StoredUser) (id : Nat) : Option StoredUser :=
  db.find? (fun u => u.id = id && activeNeFalse u)

/-! ## Authorization Gate (`protectedRoute`)

From `src/4-natours/controllers/authController.js` (final revision,
lines 455–496).  `jwt.verify` is external: it is a parameter
`verify : String → Option Token` where `none` means verification threw
(bad signature or expired token) and `some` carries the decoded payload
(a verified, unexpired token). -/

/-- The decoded JWT payload: the subject id and the issued-at claim
(seconds since the epoch, as in the `iat` claim). -/
structure Token where
  id : Nat
  iat : Nat
  deriving DecidableEq, Repr

/-- Step 1 of `protectedRoute`: extract the bearer token from the
`Authorization` header.  The source assigns
`token = req.headers.authorization.split(' ')[1]` only when the header is
present and starts with the literal `Bearer`; otherwise `token` stays
`undefined`. -/
def extractBearerToken (authorization : Option String) : Option String :=
  match authorization with
  | none => none
  | some a => if jsStartsWith a "Bearer" then (jsSplit ' ' a)[1]? else none

/-- Outcome of the gate for one request. -/
inductive GateResult where
  /-- `next(new AppError(message, statusCode))` was called. -/
  | rejected (statusCode : Nat) (message : String)
  /-- `jwt.verify` threw; the raw error propagates to the error middleware. -/
  | verifyError
  /-- `req.user = user; next()`: the Principal is attached and the request
  proceeds. -/
  | admitted (user : StoredUser)
  deriving DecidableEq, Repr

/-- `protectedRoute` (`authController.js` final revision, lines 455–496),
with the token verifier and the user collection as parameters. -/
def protectedRoute (verify : String → Option Token) (db : List StoredUser)
    (authorization : Option String) : GateResult :=
  let token := extractBearerToken authorization
  if jsFalsyString token then
    .rejected 401 "You are not logged in!"
  else
    match verify (token.getD "") with
    | none => .verifyError
    | some decoded =>
      match findById db decoded.id with
      | none => .rejected 401 "The user for this token no longer exists"
      | some user =>
        if changedPasswordAfter user decoded.iat then
          .rejected 401
            "Your password was changed. Please log in again with your new password!"
        else
          .admitted user

end Natours

namespace Natours

/-! Small facts used by the gate theorems. -/

theorem findById_activeNeFalse {db : List StoredUser} {id : Nat} {u : StoredUser}
    (h : findById db id = some u) : u.active ≠ some false := by
  have hmem := List.find?_some h
  simp only [Bool.and_eq_true, decide_eq_true_eq, activeNeFalse, ne_eq] at hmem
  exact hmem.2

theorem findById_eq_none_of_all_inactive {db : List StoredUser} {id : Nat}
    (h : ∀ u ∈ db, u.id = id → u.active = some false) :
    findById db id = none := by
  apply List.find?_eq_none.mpr
  intro u hu
  simp only [Bool.and_eq_true, decide_eq_true_eq, not_and]
  intro hid
  simp [activeNeFalse, h u hu hid]

end Natours

namespace Natours

/-- **C1.** For every request presenting a token that verifies (and is
therefore unexpired), if the resolved Principal's last-password-change
timestamp — truncated to seconds exactly as
`changedPasswordAfter` does with `parseInt(getTime() / 1000)` — is later
than the token's issued-at timestamp, `protectedRoute` rejects the request
with status 401 and the password-changed message, and never attaches the
Principal to the request. -/
theorem gate_rejects_token_issued_before_password_change
    (verify : String → Option Token) (db : List StoredUser)
    (authorization : Option String) (tok : String) (decoded : Token)
    (user : StoredUser) (t : Nat)
    (hextract : extractBearerToken authorization = some tok)
    (hnonempty : tok ≠ "")
    (hverify : verify tok = some decoded)
    (hfound : findById db decoded.id = some user)
    (hchanged : user.passwordChangedAt = some t)
    (hlater : decoded.iat < t / 1000) :
    protectedRoute verify db authorization =
      .rejected 401
        "Your password was changed. Please log in again with your new password!"
    ∧ ∀ u : StoredUser, protectedRoute verify db authorization ≠ .admitted u := by
  have hres : protectedRoute verify db authorization =
      .rejected 401
        "Your password was changed. Please log in again with your new password!" := by
    unfold protectedRoute
    rw [hextract]
    simp only [jsFalsyString, hnonempty, if_neg, decide_eq_true_eq]
    rw [if_neg (by simp [hnonempty])]
    simp only [Option.getD_some, hverify, hfound]
    rw [if_pos (by simp [changedPasswordAfter, hchanged, hlater])]
  exact ⟨hres, fun u h => by rw [hres] at h; exact GateResult.noConfusion h⟩

/-- Concrete instantiation of
`gate_rejects_token_issued_before_password_change`: a verifier accepting
the token `"tok"` issued at second 5 for user 1, whose password changed at
millisecond 7000 (second 7). -/
theorem gate_rejects_token_issued_before_password_change_witness :
    protectedRoute
      (fun s => if s = "tok" then some ⟨1, 5⟩ else none)
      [⟨1, "Alice", "alice@example.com", "user", "hash",
        some 7000, none, none, some true⟩]
      (some "Bearer tok") =
      .rejected 401
        "Your password was changed. Please log in again with your new password!" :=
  (gate_rejects_token_issued_before_password_change
    (fun s => if s = "tok" then some ⟨1, 5⟩ else none)
    [⟨1, "Alice", "alice@example.com", "user", "hash",
      some 7000, none, none, some true⟩]
    (some "Bearer tok") "tok" ⟨1, 5⟩
    ⟨1, "Alice", "alice@example.com", "user", "hash",
      some 7000, none, none, some true⟩ 7000
    (by decide) (by decide) (by decide) (by decide) (by decide) (by decide)).1

end Natours

namespace Natours

/-- **C9.** Every `find`-family Principal lookup excludes records whose
`active` flag is `false` (part 1); consequently a token that verifies
(hence is unexpired) but whose subject's records are all soft-deleted is
rejected by the gate with 401 "user no longer exists" (part 2), exactly as
if the account had been removed. -/
theorem gate_rejects_soft_deleted_principal :
    (∀ (db : List StoredUser) (id : Nat) (u : StoredUser),
      findById db id = some u → u.active ≠ some false)
    ∧ (∀ (verify : String → Option Token) (db : List StoredUser)
        (authorization : Option String) (tok : String) (decoded : Token),
        extractBearerToken authorization = some tok → tok ≠ "" →
        verify tok = some decoded →
        (∀ u ∈ db, u.id = decoded.id → u.active = some false) →
        protectedRoute verify db authorization =
          .rejected 401 "The user for this token no longer exists") := by
  refine ⟨fun db id u h => findById_activeNeFalse h, ?_⟩
  intro verify db authorization tok decoded hextract hnonempty hverify hinactive
  unfold protectedRoute
  rw [hextract]
  simp only [jsFalsyString]
  rw [if_neg (by simp [hnonempty])]
  simp only [Option.getD_some, hverify]
  rw [findById_eq_none_of_all_inactive hinactive]

/-- Concrete instantiation of `gate_rejects_soft_deleted_principal`:
a verifier accepting `"tok"` for user 1, whose only record is marked
`active = false`. -/
theorem gate_rejects_soft_deleted_principal_witness :
    protectedRoute
      (fun s => if s = "tok" then some ⟨1, 5⟩ else none)
      [⟨1, "Bob", "bob@example.com", "user", "hash",
        none, none, none, some false⟩]
      (some "Bearer tok") =
      .rejected 401 "The user for this token no longer exists" :=
  gate_rejects_soft_deleted_principal.2
    (fun s => if s = "tok" then some ⟨1, 5⟩ else none)
    [⟨1, "Bob", "bob@example.com", "user", "hash",
      none, none, none, some false⟩]
    (some "Bearer tok") "tok" ⟨1, 5⟩
    (by decide) (by decide) (by decide) (by decide)

/-- **C10.** When the `Authorization` header is absent, does not start with
the literal `Bearer`, or is exactly `"Bearer"` (so the second
space-separated part is missing), the gate rejects with 401
"You are not logged in!" — for *every* verifier, i.e. without any
cryptographic verification being consulted. -/
theorem gate_rejects_missing_bearer_token
    (verify : String → Option Token) (db : List StoredUser)
    (authorization : Option String)
    (h : authorization = none
      ∨ (∀ a, authorization = some a → jsStartsWith a "Bearer" = false)
      ∨ authorization = some "Bearer") :
    protectedRoute verify db authorization =
      .rejected 401 "You are not logged in!" := by
  have hextract : extractBearerToken authorization = none := by
    rcases h with h | h | h
    · simp [extractBearerToken, h]
    · cases authorization with
      | none => rfl
      | some a => simp [extractBearerToken, h a rfl]
    · subst h; decide
  unfold protectedRoute
  rw [hextract]
  simp [jsFalsyString]

/-- Concrete instantiations of `gate_rejects_missing_bearer_token`: an
absent header, a `Basic` credential header, and a bare `"Bearer"` header
are all rejected as not logged in, under a verifier that would accept any
token. -/
theorem gate_rejects_missing_bearer_token_witness :
    protectedRoute (fun _ => some ⟨1, 5⟩) [] none =
      .rejected 401 "You are not logged in!"
    ∧ protectedRoute (fun _ => some ⟨1, 5⟩) [] (some "Basic abc") =
      .rejected 401 "You are not logged in!"
    ∧ protectedRoute (fun _ => some ⟨1, 5⟩) [] (some "Bearer") =
      .rejected 401 "You are not logged in!" :=
  ⟨gate_rejects_missing_bearer_token _ [] none (Or.inl rfl),
   gate_rejects_missing_bearer_token _ [] (some "Basic abc")
     (Or.inr (Or.inl (fun a ha => by cases ha; decide))),
   gate_rejects_missing_bearer_token _ [] (some "Bearer")
     (Or.inr (Or.inr rfl))⟩

end Natours

namespace Natours

/-! ## Query Refinement Pipeline: `paginate`

From `src/4-natours/utils/apiFeatures.js` lines 87–102.  The method reads
`page` and `limit` from the query string (each a string or absent),
coerces with `Number(x) || default`, and computes
`skip = (page - 1) * limit`.  The result is the `(skip, limit)` pair
handed to the storage query. -/

/-- `APIFeatures.paginate`: returns the `(skip, limit)` pair produced by
`this.query.skip(skip).limit(limit)`. -/
def paginate (page limit : Option String) : Int × Int :=
  let p := jsOrInt (jsNumberOpt? page) 1
  let l := jsOrInt (jsNumberOpt? limit) 100
  ((p - 1) * l, l)

/-- **C7.** `paginate` computes `skip = (page − 1) × limit` with `page`
defaulting to 1 and `limit` to 100 when absent or non-numeric:
the three concrete cases of the claim, plus the general statements that a
missing or non-numeric parameter behaves exactly as an absent one and that
numeric positive parameters are used as given. -/
theorem paginate_defaults_and_offset :
    paginate (some "2") (some "10") = (10, 10)
    ∧ paginate none none = (0, 100)
    ∧ (∀ limit, (paginate (some "abc") limit).1 = 0)
    ∧ (∀ page limit, jsNumberOpt? page = none →
        paginate page limit = paginate none limit)
    ∧ (∀ page limit, jsNumberOpt? limit = none →
        paginate page limit = paginate page none)
    ∧ (∀ page limit (p l : Int), jsNumberOpt? page = some p → 0 < p →
        jsNumberOpt? limit = some l → 0 < l →
        paginate page limit = ((p - 1) * l, l)) := by
  refine ⟨by decide, by decide, ?_, ?_, ?_, ?_⟩
  · intro limit
    simp [paginate, jsNumberOpt?, jsOrInt, show jsNumberInt? "abc" = none from by decide]
  · intro page limit h
    simp [paginate, h, show jsNumberOpt? none = none from rfl]
  · intro page limit h
    simp [paginate, h, show jsNumberOpt? none = none from rfl]
  · intro page limit p l hp hp0 hl hl0
    simp [paginate, hp, hl, jsOrInt, hp0.ne', hl0.ne']

/-- Concrete instantiation of the hypothesis-bearing parts of
`paginate_defaults_and_offset`: `page=3`, `limit=7` gives skip 14 and
limit 7, and a non-numeric page behaves as an absent one. -/
theorem paginate_defaults_and_offset_witness :
    paginate (some "3") (some "7") = (14, 7)
    ∧ paginate (some "xyz") (some "7") = paginate none (some "7") :=
  ⟨paginate_defaults_and_offset.2.2.2.2.2 (some "3") (some "7") 3 7
      (by decide) (by decide) (by decide) (by decide),
   paginate_defaults_and_offset.2.2.2.1 (some "xyz") (some "7") (by decide)⟩

end Natours

namespace Natours

/-! ## Query Refinement Pipeline: `filter`

From `src/4-natours/utils/apiFeatures.js` lines 17–45.  The method copies
the query object, deletes the four reserved control keys, serializes the
rest with `JSON.stringify`, rewrites the serialized text with
`queryStr.replace(/\b(?:gte|gt|lte|lt)\b/g, m => `$${m}`)`, and parses it
back.  A query-string value, as the web framework parses it for this API,
is either a plain string or one level of qualifiers
(`price[gte]=100` parses to `price ↦ { gte ↦ "100" }`).  In the
serialized JSON every key and every string value is delimited by quotes
(non-word characters), so the word-boundary matches of the regex are
exactly the maximal word-character runs inside individual keys and values
that equal one of the four comparison words; the round trip therefore
rewrites each key and string value independently. -/

/-- A query-string value: a plain string, or an object of qualifier/value
pairs. -/
inductive QVal where
  | str (s : String)
  | obj (fields : List (String × String))
  deriving DecidableEq, Repr

/-- A word character in the sense of the regex metacharacter `\b`. -/
def isWordChar (c : Char) : Bool :=
  c.isAlphanum || c = '_'

/-- Split a character list into maximal runs of word characters and
non-word characters, each tagged with whether it is a word run. -/
def charRuns (cs : List Char) : List (Bool × List Char) :=
  cs.foldr
    (fun c acc =>
      match acc with
      | [] => [(isWordChar c, [c])]
      | (w, run) :: rest =>
        if isWordChar c = w then (w, c :: run) :: rest
        else (isWordChar c, [c]) :: (w, run) :: rest)
    []

/-- The four comparison words rewritten by the `filter` regex. -/
def comparisonWords : List String := ["gte", "gt", "lte", "lt"]

/-- The effect of the regex replacement on one serialized string: a match
needs word boundaries on both sides, so exactly the maximal word runs
equal to one of the four comparison words receive a `$` prefix. -/
def replaceComparisonOps (s : String) : String :=
  String.mk ((charRuns s.data).foldr
    (fun br acc =>
      if br.1 && comparisonWords.contains (String.mk br.2)
      then '$' :: (br.2 ++ acc) else br.2 ++ acc) [])

/-- Whether some maximal word run of `s` is one of the four comparison
words, i.e. whether the regex matches somewhere in `s`. -/
def hasComparisonWord (s : String) : Bool :=
  (charRuns s.data).any (fun br => br.1 && comparisonWords.contains (String.mk br.2))

/-- The serialize / replace / parse round trip on one query value. -/
def replaceOpsVal : QVal → QVal
  | .str s => .str (replaceComparisonOps s)
  | .obj fs => .obj (fs.map (fun kv => (replaceComparisonOps kv.1, replaceComparisonOps kv.2)))

/-- The round trip on the whole (reserved-key-free) query object. -/
def replaceOpsFields (fs : List (String × QVal)) : List (String × QVal) :=
  fs.map (fun kv => (replaceComparisonOps kv.1, replaceOpsVal kv.2))

/-- The four reserved control keys deleted by `filter`. -/
def excludedFields : List String := ["page", "sort", "limit", "fields"]

/-- `APIFeatures.filter` (`apiFeatures.js` lines 17–45): delete the four
reserved keys from a copy of the query object, then apply the serialize /
regex-replace / parse step; the result is the predicate object handed to
`find`. -/
def filter (queryString : List (String × QVal)) : List (String × QVal) :=
  replaceOpsFields (queryString.filter (fun kv => !excludedFields.contains kv.1))

/-- Concatenating the runs of `charRuns` recovers the original list. -/
theorem charRuns_flatten (cs : List Char) :
    ((charRuns cs).foldr (fun br acc => br.2 ++ acc) []) = cs := by
  induction cs with
  | nil => rfl
  | cons c cs ih =>
    unfold charRuns at ih ⊢
    cases h : cs.foldr
        (fun c acc =>
          match acc with
          | [] => [(isWordChar c, [c])]
          | (w, run) :: rest =>
            if isWordChar c = w then (w, c :: run) :: rest
            else (isWordChar c, [c]) :: (w, run) :: rest)
        [] with
    | nil => simp_all
    | cons br rest =>
      obtain ⟨w, run⟩ := br
      rw [h] at ih
      by_cases hw : isWordChar c = w
      · simp only [List.foldr_cons, h, hw, if_true]
        simpa using ih
      · simp only [List.foldr_cons, h, hw, if_false]
        simpa using ih

/-- A string in which the regex does not match is left unchanged by the
replacement. -/
theorem replaceComparisonOps_id_of_no_match {s : String}
    (h : hasComparisonWord s = false) : replaceComparisonOps s = s := by
  unfold replaceComparisonOps
  unfold hasComparisonWord at h
  rw [List.any_eq_false] at h
  have aux : ∀ L : List (Bool × List Char),
      (∀ x ∈ L, ¬(x.1 && comparisonWords.contains (String.mk x.2)) = true) →
      (L.foldr
        (fun br acc =>
          if br.1 && comparisonWords.contains (String.mk br.2)
          then '$' :: (br.2 ++ acc) else br.2 ++ acc) []) =
      (L.foldr (fun br acc => br.2 ++ acc) []) := by
    intro L hL
    induction L with
    | nil => rfl
    | cons br rest ih =>
      simp only [List.foldr_cons]
      rw [if_neg (hL br (List.mem_cons_self br rest)),
        ih (fun x hx => hL x (List.mem_cons_of_mem br hx))]
  rw [aux _ h, charRuns_flatten]

end Natours

namespace Natours

/-- **C3 (counterexample).** The claim says values that are not comparison
qualifiers pass through unchanged, but `filter` applies its regex to the
whole serialized object: the input `{ note: "gt" }` — no reserved keys, no
qualifier — comes out with the *value* rewritten to `"$gt"`, i.e. an
equality predicate on a different value than the client supplied. -/
theorem filter_rewrites_plain_value_counterexample :
    filter [("note", QVal.str "gt")] = [("note", QVal.str "$gt")]
    ∧ ("$gt" : String) ≠ "gt" := by
  constructor
  · decide
  · decide

end Natours

namespace Natours

/-- **C3 (amended).** `filter` removes exactly the four reserved control
keys and maps every remaining entry through the serialize / regex-replace
/ parse step: (1) every non-reserved entry survives, transformed by the
replacement; (2) every output entry arises that way from a non-reserved
input entry (so exactly the reserved keys are removed); (3) a key or value
in which none of `gte`, `gt`, `lte`, `lt` occurs as a standalone word is
passed through unchanged; (4) a comparison qualifier such as
`price[gte]=100` is mapped onto the `$`-prefixed range operator; and (5)
an input containing only reserved keys yields an empty predicate set. -/
theorem filter_spec :
    (∀ (q : List (String × QVal)) (k : String) (v : QVal),
      (k, v) ∈ q → excludedFields.contains k = false →
      (replaceComparisonOps k, replaceOpsVal v) ∈ filter q)
    ∧ (∀ (q : List (String × QVal)) (kv : String × QVal),
      kv ∈ filter q →
      ∃ k v, (k, v) ∈ q ∧ excludedFields.contains k = false ∧
        kv = (replaceComparisonOps k, replaceOpsVal v))
    ∧ (∀ s : String, hasComparisonWord s = false → replaceComparisonOps s = s)
    ∧ (filter [("price", QVal.obj [("gte", "100")])] =
        [("price", QVal.obj [("$gte", "100")])])
    ∧ (∀ q : List (String × QVal),
      (∀ kv ∈ q, excludedFields.contains kv.1 = true) → filter q = []) := by
  refine ⟨?_, ?_, fun s h => replaceComparisonOps_id_of_no_match h, by decide, ?_⟩
  · intro q k v hmem hexcl
    unfold filter replaceOpsFields
    exact List.mem_map.mpr ⟨(k, v), List.mem_filter.mpr
      ⟨hmem, by simpa using hexcl⟩, rfl⟩
  · intro q kv hkv
    unfold filter replaceOpsFields at hkv
    obtain ⟨⟨k, v⟩, hin, heq⟩ := List.mem_map.mp hkv
    have hf := List.mem_filter.mp hin
    refine ⟨k, v, hf.1, ?_, heq.symm⟩
    simpa using hf.2
  · intro q hall
    unfold filter replaceOpsFields
    rw [List.filter_eq_nil_iff.mpr
      (fun kv hkv => by simpa using hall kv hkv)]
    rfl

/-- Concrete instantiation of the hypothesis-bearing parts of
`filter_spec`: a mixed query keeps (and transforms) its non-reserved
entries, an untouched key/value pair survives verbatim, and an
only-reserved query filters to nothing. -/
theorem filter_spec_witness :
    (replaceComparisonOps "duration", replaceOpsVal (QVal.str "5")) ∈
      filter [("page", QVal.str "2"), ("duration", QVal.str "5")]
    ∧ replaceComparisonOps "duration" = "duration"
    ∧ filter [("page", QVal.str "2"), ("limit", QVal.str "10"),
        ("sort", QVal.str "price"), ("fields", QVal.str "name")] = [] :=
  ⟨filter_spec.1 [("page", QVal.str "2"), ("duration", QVal.str "5")]
      "duration" (QVal.str "5") (by decide) (by decide),
   filter_spec.2.2.1 "duration" (by decide),
   filter_spec.2.2.2.2 [("page", QVal.str "2"), ("limit", QVal.str "10"),
      ("sort", QVal.str "price"), ("fields", QVal.str "name")]
      (by decide)⟩

end Natours

namespace Natours

/-! ## Error Normalization Layer

From `src/4-natours/controllers/errorController.js` and
`src/4-natours/utils/appError.js`.  The handler works on a duck-typed
error object; `ErrShape` carries the properties the handler inspects.
On every `Error` instance `message` and `stack` are own *non-enumerable*
properties, which matters because the production branch copies the error
with `JSON.parse(JSON.stringify(err))` before classifying it. -/

/-- The duck-typed error object reaching `globalErrorHandler`.
`none` stands for a JS `undefined` property. -/
structure ErrShape where
  name : Option String
  /-- `err.code`, set to 11000 on driver duplicate-key errors
  (an own enumerable property). -/
  code : Option Nat
  statusCode : Option Nat
  status : Option String
  message : Option String
  /-- `err.stack`, the captured trace — like `message` an own
  non-enumerable property on every `Error` instance. -/
  stack : Option String
  isOperational : Bool
  /-- `err.keyValue`, the offending fields/values of a duplicate-key error
  (own enumerable). -/
  keyValue : List (String × String)
  /-- The `el.message` strings of `err.errors`, set on validation errors. -/
  errorsMsgs : List String
  path : Option String
  value : Option String
  deriving DecidableEq, Repr

/-- Template-literal interpolation of a possibly-undefined string. -/
def jsInterp (v : Option String) : String :=
  match v with
  | none => "undefined"
  | some s => s

/-- `new AppError(message, statusCode)` (`utils/appError.js`): `status` is
`"fail"` when the code's decimal representation starts with `4`, else
`"error"`; the error is marked operational. -/
def mkAppError (message : String) (statusCode : Nat) : ErrShape :=
  { name := some "Error"
    code := none
    statusCode := some statusCode
    status := some (if jsStartsWith (toString statusCode) "4" then "fail" else "error")
    message := some message
    -- `Error.captureStackTrace` installs a fresh trace; its contents never
    -- reach a response body or a log in the theorems below.
    stack := some "<captured stack trace>"
    isOperational := true
    keyValue := []
    errorsMsgs := []
    path := none
    value := none }

/-- `JSON.parse(JSON.stringify(err))` (`errorController.js` line 85): own
enumerable properties (`statusCode`, `status`, `isOperational`, `code`,
`keyValue`, validation data, …) survive; `message` and `stack` are own
non-enumerable on every `Error` instance and are dropped.  (Whether `name`
survives depends on the ORM's property layout; no theorem below depends on
it, and it is kept here as the source's comment assumes.) -/
def jsonCopy (e : ErrShape) : ErrShape :=
  { e with message := none, stack := none }

/-- `handleCastErrorMongoose` (`errorController.js` lines 5–8). -/
def handleCastErrorMongoose (err : ErrShape) : ErrShape :=
  mkAppError ("Invalid " ++ jsInterp err.path ++ ": " ++ jsInterp err.value) 400

/-- `handleDuplicateFieldMongoose` (`errorController.js` lines 12–17): the
message interpolates `Object.keys(err.keyValue)` and
`Object.values(err.keyValue)` (arrays stringify comma-separated). -/
def handleDuplicateFieldMongoose (err : ErrShape) : ErrShape :=
  mkAppError
    (String.intercalate "," (err.keyValue.map Prod.fst) ++ ": " ++
      String.intercalate "," (err.keyValue.map Prod.snd) ++
      " already exists! Enter a different value") 400

/-- `handleValidationError` (`errorController.js` lines 21–27). -/
def handleValidationError (err : ErrShape) : ErrShape :=
  mkAppError ("Invalid input data! " ++ String.intercalate ", " err.errorsMsgs) 400

/-- The JSON response one failure terminates in.  `status` and `message`
are `Option` because a JS `undefined` field is dropped from the body. -/
structure ErrorResponse where
  httpStatus : Nat
  status : Option String
  message : Option String
  /-- whether the body carries the `stack` field. -/
  includesStack : Bool
  /-- whether the body carries the complete `error` object. -/
  includesFullError : Bool
  /-- whether the failure was logged server-side (`console.error`). -/
  loggedToConsole : Bool
  deriving DecidableEq, Repr

/-- `sendErrorDevelopment` (`errorController.js` lines 31–38): full
detail — original message, complete error object and stack trace.
(`statusCode` is always set by the caller; `getD` only totalizes.) -/
def sendErrorDevelopment (err : ErrShape) : ErrorResponse :=
  { httpStatus := err.statusCode.getD 500
    status := err.status
    message := err.message
    includesStack := true
    includesFullError := true
    loggedToConsole := false }

/-- `sendErrorProduction` (`errorController.js` lines 42–62): operational
errors are surfaced with their own status code, status and message;
anything else is answered with a hard-coded
`500 / "fail" / "Something went very wrong!"` after
`console.error('ERROR!!!!', err)`.  The second component is the exact
object that `console.error` receives (`none` when nothing is logged):
the function's own argument — in the production flow the classified JSON
copy, not the original error. -/
def sendErrorProduction (err : ErrShape) : ErrorResponse × Option ErrShape :=
  if err.isOperational then
    ({ httpStatus := err.statusCode.getD 500
       status := err.status
       message := err.message
       includesStack := false
       includesFullError := false
       loggedToConsole := false }, none)
  else
    ({ httpStatus := 500
       status := some "fail"
       message := some "Something went very wrong!"
       includesStack := false
       includesFullError := false
       loggedToConsole := true }, some err)

/-- JS `n || d` for a possibly-undefined numeric property (`0` is falsy). -/
def jsOrNat (v : Option Nat) (d : Nat) : Nat :=
  match v with
  | none => d
  | some n => if n = 0 then d else n

/-- The mutation at the top of the middleware (`errorController.js`
lines 71–74): default the status code to 500 and the status to
`"error"`. -/
def applyDefaultStatus (err : ErrShape) : ErrShape :=
  { err with
    statusCode := some (jsOrNat err.statusCode 500)
    status := some (jsOrString err.status "error") }

/-- The production branch's rewriting chain (`errorController.js`
lines 85–108): copy the error through JSON, then rewrite the three known
causes in order. -/
def classifyProductionError (err : ErrShape) : ErrShape :=
  let error := jsonCopy err
  let error := if error.name = some "CastError" then handleCastErrorMongoose error else error
  let error := if error.code = some 11000 then handleDuplicateFieldMongoose error else error
  if error.name = some "ValidationError" then handleValidationError error else error

/-- The global error-handling middleware (`errorController.js`
lines 69–111): apply the defaults, then dispatch on `NODE_ENV`; the
production branch classifies the JSON copy before sending.  Any other
`NODE_ENV` writes no response (`none`). -/
def globalErrorHandler (nodeEnv : String) (err : ErrShape) : Option ErrorResponse :=
  let err := applyDefaultStatus err
  if nodeEnv = "development" then
    some (sendErrorDevelopment err)
  else if nodeEnv = "production" then
    some (sendErrorProduction (classifyProductionError err)).1
  else
    none

/-- The object `console.error('ERROR!!!!', err)` receives while handling
this failure, if the log statement (`errorController.js` line 55) is
reached at all: only `sendErrorProduction`'s non-operational branch logs,
and what it logs is the classified JSON copy. -/
def globalErrorHandlerLog (nodeEnv : String) (err : ErrShape) : Option ErrShape :=
  let err := applyDefaultStatus err
  if nodeEnv = "development" then
    none
  else if nodeEnv = "production" then
    (sendErrorProduction (classifyProductionError err)).2
  else
    none

/-- An unexpected ("programming") error: thrown by a bug, carrying no
status information and not marked operational. -/
def sampleUnexpectedError : ErrShape :=
  { name := some "TypeError"
    code := none
    statusCode := none
    status := none
    message := some "Cannot read properties of undefined"
    stack := some "TypeError: Cannot read properties of undefined\n    at getTourById"
    isOperational := false
    keyValue := []
    errorsMsgs := []
    path := none
    value := none }

/-- A driver duplicate-key failure on the Principal's unique email. -/
def sampleDuplicateEmailError : ErrShape :=
  { name := some "MongoServerError"
    code := some 11000
    statusCode := none
    status := none
    message := some "E11000 duplicate key error collection: users index: email_1"
    stack := some "MongoServerError: E11000 duplicate key error\n    at signUp"
    isOperational := false
    keyValue := [("email", "a@b.com")]
    errorsMsgs := []
    path := none
    value := none }

end Natours

namespace Natours

/-- An unclassified error passes through the production rewriting chain
untouched: the classified object is the bare JSON copy. -/
theorem classifyProductionError_unclassified (err : ErrShape)
    (hcast : err.name ≠ some "CastError")
    (hval : err.name ≠ some "ValidationError")
    (hdup : err.code ≠ some 11000) :
    classifyProductionError (applyDefaultStatus err) =
      jsonCopy (applyDefaultStatus err) := by
  unfold classifyProductionError
  dsimp only
  rw [if_neg (show ¬(jsonCopy (applyDefaultStatus err)).name = some "CastError" from by
        simpa [jsonCopy, applyDefaultStatus] using hcast),
    if_neg (show ¬(jsonCopy (applyDefaultStatus err)).code = some 11000 from by
        simpa [jsonCopy, applyDefaultStatus] using hdup),
    if_neg (show ¬(jsonCopy (applyDefaultStatus err)).name = some "ValidationError" from by
        simpa [jsonCopy, applyDefaultStatus] using hval)]

/-- **C4 (counterexample).** Two conjuncts of the claim fail on a concrete
unexpected `TypeError` in production mode: the body's status field is the
hard-coded `"fail"`, not `"error"`; and although `console.error` runs, the
object it receives is the JSON-round-trip copy, whose `message` and
`stack` are `undefined` — so the *full* detail (the original message
`"Cannot read properties of undefined"` and the trace) is not logged
server-side.  (HTTP status 500, the generic body message and the absence
of stack/detail in the response match the claim.) -/
theorem unexpected_error_status_field_counterexample :
    globalErrorHandler "production" sampleUnexpectedError =
      some { httpStatus := 500
             status := some "fail"
             message := some "Something went very wrong!"
             includesStack := false
             includesFullError := false
             loggedToConsole := true }
    ∧ (some "fail" : Option String) ≠ some "error"
    ∧ globalErrorHandlerLog "production" sampleUnexpectedError =
      some { name := some "TypeError"
             code := none
             statusCode := some 500
             status := some "error"
             message := none
             stack := none
             isOperational := false
             keyValue := []
             errorsMsgs := []
             path := none
             value := none }
    ∧ (none : Option String) ≠ some "Cannot read properties of undefined"
    ∧ (none : Option String) ≠
        some "TypeError: Cannot read properties of undefined\n    at getTourById" := by
  refine ⟨by decide, by decide, by decide, by decide, by decide⟩

/-- **C4 (amended).** For every failure not classified as a known cause,
the production branch responds with HTTP status 500, a body whose status
field is `"fail"` (not `"error"` as claimed) and whose message is the
fixed generic string — independent of the original message and carrying
no stack trace or error detail; the failure is logged server-side, but
the logged object is the JSON-round-trip copy of the error, which lacks
the original message and stack trace (both own non-enumerable), so the
full detail is lost even in the log; the development branch's response
includes the original message, the complete error and the stack trace,
and logs nothing. -/
theorem unexpected_error_normalization (err : ErrShape)
    (hop : err.isOperational = false)
    (hcast : err.name ≠ some "CastError")
    (hval : err.name ≠ some "ValidationError")
    (hdup : err.code ≠ some 11000) :
    globalErrorHandler "production" err =
      some { httpStatus := 500
             status := some "fail"
             message := some "Something went very wrong!"
             includesStack := false
             includesFullError := false
             loggedToConsole := true }
    ∧ globalErrorHandlerLog "production" err =
        some (jsonCopy (applyDefaultStatus err))
    ∧ (jsonCopy (applyDefaultStatus err)).message = none
    ∧ (jsonCopy (applyDefaultStatus err)).stack = none
    ∧ globalErrorHandler "development" err =
      some { httpStatus := jsOrNat err.statusCode 500
             status := some (jsOrString err.status "error")
             message := err.message
             includesStack := true
             includesFullError := true
             loggedToConsole := false }
    ∧ globalErrorHandlerLog "development" err = none := by
  have hclass := classifyProductionError_unclassified err hcast hval hdup
  refine ⟨?_, ?_, rfl, rfl, ?_, ?_⟩
  · unfold globalErrorHandler
    rw [if_neg (by decide : ¬("production" = "development")), if_pos rfl]
    try dsimp only
    rw [hclass]
    simp [sendErrorProduction, jsonCopy, applyDefaultStatus, hop]
  · unfold globalErrorHandlerLog
    rw [if_neg (by decide : ¬("production" = "development")), if_pos rfl]
    try dsimp only
    rw [hclass]
    simp [sendErrorProduction, jsonCopy, applyDefaultStatus, hop]
  · simp [globalErrorHandler, sendErrorDevelopment, applyDefaultStatus]
  · simp [globalErrorHandlerLog]

/-- Concrete instantiation of `unexpected_error_normalization` at the
sample unexpected `TypeError`: in development the original message and the
stack are included in the response, and the production log receives the
stripped copy whose message is `undefined`. -/
theorem unexpected_error_normalization_witness :
    globalErrorHandler "development" sampleUnexpectedError =
      some { httpStatus := 500
             status := some "error"
             message := some "Cannot read properties of undefined"
             includesStack := true
             includesFullError := true
             loggedToConsole := false }
    ∧ (jsonCopy (applyDefaultStatus sampleUnexpectedError)).message = none :=
  ⟨(unexpected_error_normalization sampleUnexpectedError
      (by decide) (by decide) (by decide) (by decide)).2.2.2.2.1,
   (unexpected_error_normalization sampleUnexpectedError
      (by decide) (by decide) (by decide) (by decide)).2.2.1⟩

end Natours

namespace Natours

/-- **C6 (counterexample).** The claim says a duplicate-email failure never
yields a 500 in any deployment mode, but the known-cause translation runs
only in the production branch: in development mode the raw duplicate-key
error (which carries no `statusCode`) is sent with the defaulted HTTP
status 500. -/
theorem duplicate_email_development_500_counterexample :
    globalErrorHandler "development" sampleDuplicateEmailError =
      some { httpStatus := 500
             status := some "error"
             message := some
               "E11000 duplicate key error collection: users index: email_1"
             includesStack := true
             includesFullError := true
             loggedToConsole := false }
    ∧ (500 : Nat) ≠ 400 := by
  constructor
  · decide
  · decide

/-- `String.intercalate` on a one-element list is that element (the shape
`Object.keys`/`Object.values` take for a single-field duplicate error). -/
theorem intercalate_singleton (sep v : String) : String.intercalate sep [v] = v :=
  rfl

/-- **C6 (amended).** In production mode, every duplicate-key failure on
the Principal's unique email (driver code 11000, `keyValue` naming the
`email` field) is translated into a 400 response with status field
`"fail"` and a message naming the `email` field and the offending value —
in particular it is not a 500 there; in development mode the raw error is
sent with the defaulted status 500 instead, so the no-500 guarantee is
production-only. -/
theorem duplicate_email_normalization (v : String) (err : ErrShape)
    (hcode : err.code = some 11000)
    (hkv : err.keyValue = [("email", v)])
    (hcast : err.name ≠ some "CastError") :
    globalErrorHandler "production" err =
      some { httpStatus := 400
             status := some "fail"
             message := some ("email: " ++ v ++
               " already exists! Enter a different value")
             includesStack := false
             includesFullError := false
             loggedToConsole := false }
    ∧ (∀ r, globalErrorHandler "production" err = some r → r.httpStatus ≠ 500)
    ∧ (∀ r, globalErrorHandler "development" err = some r →
        r.httpStatus = jsOrNat err.statusCode 500) := by
  have hprod : globalErrorHandler "production" err =
      some { httpStatus := 400
             status := some "fail"
             message := some ("email: " ++ v ++
               " already exists! Enter a different value")
             includesStack := false
             includesFullError := false
             loggedToConsole := false } := by
    unfold globalErrorHandler
    rw [if_neg (by decide : ¬("production" = "development")), if_pos rfl]
    try dsimp only
    unfold classifyProductionError
    dsimp only
    rw [if_neg (show ¬(jsonCopy (applyDefaultStatus err)).name = some "CastError" from by
          simpa [jsonCopy, applyDefaultStatus] using hcast),
      if_pos (show (jsonCopy (applyDefaultStatus err)).code = some 11000 from by
          simpa [jsonCopy, applyDefaultStatus] using hcode),
      if_neg (show ¬(handleDuplicateFieldMongoose
          (jsonCopy (applyDefaultStatus err))).name = some "ValidationError" from by
          simp [handleDuplicateFieldMongoose, mkAppError])]
    simp [handleDuplicateFieldMongoose, mkAppError, sendErrorProduction, jsonCopy,
      applyDefaultStatus, hkv, intercalate_singleton,
      show jsStartsWith (toString 400) "4" = true from by decide]
  refine ⟨hprod, ?_, ?_⟩
  · intro r hr
    rw [hprod] at hr
    cases hr
    simp
  · intro r hr
    simp only [globalErrorHandler, if_pos rfl] at hr
    cases hr
    rfl

/-- Concrete instantiation of `duplicate_email_normalization` at the
sample duplicate-email error: production answers 400/"fail" naming the
field and value. -/
theorem duplicate_email_normalization_witness :
    globalErrorHandler "production" sampleDuplicateEmailError =
      some { httpStatus := 400
             status := some "fail"
             message := some
               "email: a@b.com already exists! Enter a different value"
             includesStack := false
             includesFullError := false
             loggedToConsole := false } :=
  (duplicate_email_normalization "a@b.com" sampleDuplicateEmailError
    (by decide) (by decide) (by decide)).1

end Natours

namespace Natours

/-! ## Sign-up (`signUp`) and the User schema's create-time validation

From `authController.js` (final revision, lines 378–414) and the User
schema (`src/unnamed/part_000`).  `signUp` forwards an explicit field list
to `User.create`, including `role: req.body.role || 'user'` and
`passwordChangedAt: req.body.passwordChangedAt || undefined`; the schema
then trims the name, lowercases the email, requires the listed fields,
checks the email shape (external `validator.isEmail`, a parameter),
enforces the 8-character password minimum, matches `passwordConfirm`
against `password`, restricts `role` to the enumeration, and the pre-save
hooks bcrypt-hash the password and drop `passwordConfirm`. -/

/-- The request body fields `signUp` reads. -/
structure SignupBody where
  name : Option String
  email : Option String
  password : Option String
  passwordConfirm : Option String
  passwordChangedAt : Option Nat
  role : Option String
  deriving DecidableEq, Repr

/-- The field object `signUp` passes to `User.create`. -/
structure UserCreateFields where
  name : Option String
  email : Option String
  password : Option String
  passwordConfirm : Option String
  passwordChangedAt : Option Nat
  role : String
  deriving DecidableEq, Repr

/-- The argument `signUp` builds for `User.create`
(`authController.js` lines 389–396). -/
def signUpCreateArg (b : SignupBody) : UserCreateFields :=
  { name := b.name
    email := b.email
    password := b.password
    passwordConfirm := b.passwordConfirm
    -- `req.body.passwordChangedAt || undefined`: a falsy (0) timestamp
    -- becomes `undefined`.
    passwordChangedAt := match b.passwordChangedAt with
      | none => none
      | some 0 => none
      | some t => some t
    role := jsOrString b.role "user" }

/-- `User.create` on the forwarded fields: schema setters (trim,
lowercase), `required` / `minLength` / `enum` / match validation, then the
pre-save hooks (bcrypt hash, `passwordConfirm` dropped, `active`
defaulted to `true`); validation failure yields no document. -/
def userCreate (isEmail : String → Bool) (bcrypt : String → String)
    (newId : Nat) (f : UserCreateFields) : Option StoredUser :=
  match f.name, f.email, f.password, f.passwordConfirm with
  | some nm, some em, some pw, some pwc =>
    let nm := String.mk (trimChars nm.data)
    let em := String.mk (em.data.map Char.toLower)
    if nm ≠ "" ∧ em ≠ "" ∧ isEmail em = true ∧ pw ≠ "" ∧ 8 ≤ pw.length
        ∧ pwc ≠ "" ∧ pwc = pw ∧ f.role ∈ roleValues then
      some { id := newId
             name := nm
             email := em
             role := f.role
             password := bcrypt pw
             passwordChangedAt := f.passwordChangedAt
             passwordResetToken := none
             passwordResetTokenExpires := none
             active := some true }
    else none
  | _, _, _, _ => none

/-- A created document's role is exactly the forwarded `role` field, and
it lies in the schema enumeration. -/
theorem userCreate_role {isEmail : String → Bool} {bcrypt : String → String}
    {newId : Nat} {f : UserCreateFields} {u : StoredUser}
    (h : userCreate isEmail bcrypt newId f = some u) :
    u.role = f.role ∧ f.role ∈ roleValues := by
  unfold userCreate at h
  cases hn : f.name <;> cases he : f.email <;> cases hp : f.password <;>
    cases hc : f.passwordConfirm <;> simp_all
  obtain ⟨hP, hu⟩ := h
  subst hu
  simp_all

/-- A signup body supplied with `role: ""` (present but empty). -/
def emptyRoleSignupBody : SignupBody :=
  { name := some "Carol"
    email := some "carol@example.com"
    password := some "secret123"
    passwordConfirm := some "secret123"
    passwordChangedAt := none
    role := some "" }

/-- A signup body supplied with `role: "admin"`. -/
def adminSignupBody : SignupBody :=
  { emptyRoleSignupBody with role := some "admin" }

/-- **C2 (counterexample).** The claim says the default role is assigned
only when the body omits the role field; but `role: req.body.role || 'user'`
treats a present-but-empty role as absent: this body contains a role field
(`""`) yet the created Principal is stored with the default `"user"`,
not the client-supplied value. -/
theorem signup_empty_role_counterexample :
    emptyRoleSignupBody.role = some ""
    ∧ (userCreate (fun _ => true) (fun s => s) 1
        (signUpCreateArg emptyRoleSignupBody)).map (fun u => u.role) = some "user"
    ∧ ("user" : String) ≠ "" := by
  refine ⟨rfl, by decide, by decide⟩

/-- **C2 (amended).** For every sign-up whose body contains a *non-empty*
role field, the created Principal is stored with that client-supplied role
(so a client can self-assign `admin`, contrary to what the
`{name,email,password,passwordConfirm}` signup interface suggests); the
default role `"user"` is assigned when the body omits the role field *or*
supplies an empty one; and every stored role lies in the schema's
enumeration (a non-enumerated role fails validation, creating nothing). -/
theorem signup_role_is_client_controlled
    (isEmail : String → Bool) (bcrypt : String → String) (newId : Nat)
    (b : SignupBody) (u : StoredUser)
    (hcreate : userCreate isEmail bcrypt newId (signUpCreateArg b) = some u) :
    (∀ r, b.role = some r → r ≠ "" → u.role = r)
    ∧ (b.role = none → u.role = "user")
    ∧ (b.role = some "" → u.role = "user")
    ∧ u.role ∈ roleValues := by
  obtain ⟨hrole, hmem⟩ := userCreate_role hcreate
  have harg : (signUpCreateArg b).role = jsOrString b.role "user" := rfl
  rw [harg] at hrole hmem
  refine ⟨?_, ?_, ?_, ?_⟩
  · intro r hr hne
    rw [hrole, hr]
    simp [jsOrString, hne]
  · intro hr
    rw [hrole, hr]
    rfl
  · intro hr
    rw [hrole, hr]
    rfl
  · rw [hrole]
    exact hmem

/-- Concrete instantiation of `signup_role_is_client_controlled`: a body
supplying `role: "admin"` yields a stored Principal whose role is
`"admin"`. -/
theorem signup_role_is_client_controlled_witness :
    (userCreate (fun _ => true) (fun s => s) 1
      (signUpCreateArg adminSignupBody)).map (fun u => u.role) = some "admin" := by
  have h : userCreate (fun _ => true) (fun s => s) 1
      (signUpCreateArg adminSignupBody) =
      some ⟨1, "Carol", "carol@example.com", "admin", "secret123",
        none, none, none, some true⟩ := by decide
  rw [h]
  exact congrArg some
    ((signup_role_is_client_controlled (fun _ => true) (fun s => s) 1
      adminSignupBody _ h).1 "admin" rfl (by decide))

end Natours

namespace Natours

/-! ## Password reset (`resetPassword`)

From `authController.js` (final revision, lines 608–668) and
`createPasswordResetToken` (`src/unnamed/part_000` lines 188–201).
SHA-256 and bcrypt are external and appear as parameters; the random raw
token is a parameter of `createPasswordResetToken`.  `now` is `Date.now()`
in milliseconds. -/

/-- `createPasswordResetToken`: store only the SHA-256 digest of the raw
token plus a 10-minute expiry on the user document, and return the raw
value for out-of-band delivery. -/
def createPasswordResetToken (sha256 : String → String) (now : Nat)
    (rawToken : String) (u : StoredUser) : String × StoredUser :=
  (rawToken,
   { u with
      passwordResetToken := some (sha256 rawToken)
      passwordResetTokenExpires := some (now + 10 * 60 * 1000) })

/-- The `findOne` of `resetPassword`: re-digest the raw token from the
URL, match it against the stored digest, require
`passwordResetTokenExpires: { $gt: Date.now() }` — and, being a
`find`-family query, carry the soft-delete filter. -/
def resetFindOne (sha256 : String → String) (now : Nat)
    (db : List StoredUser) (rawToken : String) : Option StoredUser :=
  db.find? (fun u =>
    activeNeFalse u
    && u.passwordResetToken == some (sha256 rawToken)
    && match u.passwordResetTokenExpires with
       | some e => decide (now < e)
       | none => false)

/-- The document update performed on the matched user: reset fields
cleared, new password bcrypt-hashed by the first pre-save hook, and
`passwordChangedAt = Date.now() - 1000` set by the second pre-save hook
(the document is not new and its password is modified). -/
def applyPasswordReset (bcrypt : String → String) (now : Nat)
    (pw : String) (u : StoredUser) : StoredUser :=
  { u with
      password := bcrypt pw
      passwordChangedAt := some (now - 1000)
      passwordResetToken := none
      passwordResetTokenExpires := none }

/-- Outcome of `resetPassword`. -/
inductive ResetResult where
  /-- `next(new AppError(message, statusCode))`. -/
  | clientError (statusCode : Nat) (message : String)
  /-- `user.save()` rejected the new password fields (its validators run,
  `validateBeforeSave` not being disabled here). -/
  | validationFailure
  /-- 200 response with a fresh login token; carries the updated user
  collection. -/
  | success (statusCode : Nat) (db : List StoredUser)
  deriving DecidableEq, Repr

/-- `resetPassword` (`authController.js` lines 608–668).  The untouched
fields of the stored document already satisfy their schema constraints, so
`user.save()`'s validation is decided by the modified `password` /
`passwordConfirm` pair: present, non-empty, at least 8 characters, and
equal. -/
def resetPassword (sha256 bcrypt : String → String) (now : Nat)
    (db : List StoredUser) (rawToken : String) (pw pwc : Option String) :
    ResetResult :=
  match resetFindOne sha256 now db rawToken with
  | none => .clientError 400 "Token has either expired or is not valid"
  | some user =>
    match pw, pwc with
    | some p, some c =>
      if p ≠ "" ∧ 8 ≤ p.length ∧ c ≠ "" ∧ c = p then
        .success 200 (db.map (fun v =>
          if v.id = user.id then applyPasswordReset bcrypt now p v else v))
      else .validationFailure
    | _, _ => .validationFailure

end Natours

namespace Natours

/-- **C5.** A reset token is single-use and checked as digest-plus-expiry:
given a successful reset with raw token `T` (and digests identifying at
most one account), (a) the accepting account held the matching digest with
an unexpired expiry and was live; (b) the updated collection rejects every
further reset attempt with the same raw token `T`, at any time and with
any body, with the undifferentiated 400 message; (c) whenever the lookup
fails — no matching digest *or* elapsed expiry — the rejection is that
same single 400 response; and (d) an account prepared by
`createPasswordResetToken` accepts its raw token before the 10-minute
expiry. -/
theorem reset_token_single_use
    (sha256 bcrypt : String → String) (now : Nat) (db db' : List StoredUser)
    (rawToken : String) (pw pwc : Option String)
    (hok : resetPassword sha256 bcrypt now db rawToken pw pwc = .success 200 db')
    (huniq : ∀ u₁ ∈ db, ∀ u₂ ∈ db,
      u₁.passwordResetToken = some (sha256 rawToken) →
      u₂.passwordResetToken = some (sha256 rawToken) → u₁.id = u₂.id) :
    (∃ u ∈ db, activeNeFalse u = true
      ∧ u.passwordResetToken = some (sha256 rawToken)
      ∧ ∃ e, u.passwordResetTokenExpires = some e ∧ now < e)
    ∧ (∀ (now₂ : Nat) (pw₂ pwc₂ : Option String),
        resetPassword sha256 bcrypt now₂ db' rawToken pw₂ pwc₂ =
          .clientError 400 "Token has either expired or is not valid")
    ∧ (∀ (n₀ : Nat) (db₀ : List StoredUser) (raw₀ : String)
        (pw₀ pwc₀ : Option String),
        resetFindOne sha256 n₀ db₀ raw₀ = none →
        resetPassword sha256 bcrypt n₀ db₀ raw₀ pw₀ pwc₀ =
          .clientError 400 "Token has either expired or is not valid")
    ∧ (∀ (u : StoredUser) (raw : String) (t₀ t₁ : Nat),
        activeNeFalse u = true → t₁ < t₀ + 10 * 60 * 1000 →
        resetFindOne sha256 t₁ [(createPasswordResetToken sha256 t₀ raw u).2] raw
          = some (createPasswordResetToken sha256 t₀ raw u).2) := by
  unfold resetPassword at hok
  cases hfind : resetFindOne sha256 now db rawToken with
  | none =>
    rw [hfind] at hok
    exact absurd hok (by simp)
  | some user =>
    rw [hfind] at hok
    have hmem : user ∈ db := List.mem_of_find?_eq_some hfind
    have hpred := List.find?_some hfind
    simp only [resetFindOne, Bool.and_eq_true, beq_iff_eq] at hpred
    obtain ⟨⟨hact, htok⟩, hexp⟩ := hpred
    rcases pw with _ | p <;> rcases pwc with _ | c
    · exact absurd hok (by simp)
    · exact absurd hok (by simp)
    · exact absurd hok (by simp)
    dsimp only at hok
    split at hok
    case isFalse => exact absurd hok (by simp)
    case isTrue =>
      obtain ⟨-, hdb'⟩ := ResetResult.success.inj hok
      refine ⟨?_, ?_, ?_, ?_⟩
      · refine ⟨user, hmem, hact, htok, ?_⟩
        cases hE : user.passwordResetTokenExpires with
        | none => rw [hE] at hexp; exact absurd hexp (by simp)
        | some e =>
          rw [hE] at hexp
          exact ⟨e, rfl, by simpa using hexp⟩
      · intro now₂ pw₂ pwc₂
        have hnone : resetFindOne sha256 now₂ db' rawToken = none := by
          apply List.find?_eq_none.mpr
          intro u' hu'
          rw [← hdb'] at hu'
          obtain ⟨v, hv, rfl⟩ := List.mem_map.mp hu'
          by_cases hid : v.id = user.id
          · simp [applyPasswordReset, hid]
          · rw [if_neg hid]
            simp only [Bool.and_eq_true, beq_iff_eq, not_and]
            intro hcomp
            exact absurd (huniq v hv user hmem hcomp.2 htok) hid
        unfold resetPassword
        rw [hnone]
      · intro n₀ db₀ raw₀ pw₀ pwc₀ h₀
        unfold resetPassword
        rw [h₀]
      · intro u raw t₀ t₁ hact' hlt'
        unfold resetFindOne createPasswordResetToken
        apply List.find?_cons_of_pos
        simp only [activeNeFalse, ne_eq, decide_eq_true_eq, Bool.and_eq_true,
          beq_iff_eq, decide_not] at hact' ⊢
        refine ⟨⟨by simpa using hact', trivial⟩, ?_⟩
        omega

end Natours

namespace Natours

/-- Concrete instantiation of `reset_token_single_use`: one account holds
the digest of raw token `"T"` (digest function `s ↦ s ++ "#"`) with an
unexpired expiry; the reset succeeds, clears the fields, and a second
attempt with the same raw token — even immediately, with a fresh valid
body — gets the undifferentiated 400 rejection. -/
theorem reset_token_single_use_witness :
    resetPassword (fun s => String.append s "#") (fun s => s) 5000
      [⟨1, "Dora", "dora@example.com", "user", "oldhash",
        none, some "T#", some 1000000, some true⟩] "T"
      (some "newpass123") (some "newpass123") =
      .success 200
        [⟨1, "Dora", "dora@example.com", "user", "newpass123",
          some 4000, none, none, some true⟩]
    ∧ resetPassword (fun s => String.append s "#") (fun s => s) 6000
        [⟨1, "Dora", "dora@example.com", "user", "newpass123",
          some 4000, none, none, some true⟩] "T"
        (some "other12345") (some "other12345") =
      .clientError 400 "Token has either expired or is not valid" := by
  have hok : resetPassword (fun s => String.append s "#") (fun s => s) 5000
      [⟨1, "Dora", "dora@example.com", "user", "oldhash",
        none, some "T#", some 1000000, some true⟩] "T"
      (some "newpass123") (some "newpass123") =
      .success 200
        [⟨1, "Dora", "dora@example.com", "user", "newpass123",
          some 4000, none, none, some true⟩] := by decide
  exact ⟨hok,
    (reset_token_single_use (fun s => String.append s "#") (fun s => s) 5000
      [⟨1, "Dora", "dora@example.com", "user", "oldhash",
        none, some "T#", some 1000000, some true⟩]
      [⟨1, "Dora", "dora@example.com", "user", "newpass123",
        some 4000, none, none, some true⟩] "T"
      (some "newpass123") (some "newpass123") hok
      (by decide)).2.1 6000 (some "other12345") (some "other12345")⟩

end Natours

namespace Natours

/-! ## Tour schema invariants

From `src/unnamed/part_002` (final revision of `tour.model.js`): the name
is trimmed and bounded to 10–40 characters, `difficulty` is enumerated,
`ratingsAverage` defaults to 4.5 and is bounded to [1, 5], and
`priceDiscount`, when present, must satisfy `val < this.price`.  These
validators run on `create`/`save`, and `updateTourById` passes
`runValidators: true`.  JS numbers are modelled as `Rat` (exact on the
schema's decimal literals, order-preserving). -/

/-- The fields of a Tour payload that the schema validates. -/
structure TourInput where
  name : Option String
  duration : Option Rat
  maxGroupSize : Option Rat
  difficulty : Option String
  ratingsAverage : Option Rat
  ratingsQuantity : Option Rat
  price : Option Rat
  priceDiscount : Option Rat
  summary : Option String
  imageCover : Option String
  secretTour : Option Bool
  deriving DecidableEq, Repr

/-- The schema's default rating average, the literal `4.5` (= 9/2, held
in lowest terms). -/
def ratingsAverageDefault : Rat := Rat.mk' 9 2 (by decide) (by decide)

/-- Schema setters and defaults applied before validation: the name is
trimmed, `ratingsAverage` defaults to 4.5, `ratingsQuantity` to 0 and
`secretTour` to `false` when unset. -/
def applyTourDefaults (t : TourInput) : TourInput :=
  { t with
      name := t.name.map (fun s => String.mk (trimChars s.data))
      ratingsAverage := some (t.ratingsAverage.getD ratingsAverageDefault)
      ratingsQuantity := some (t.ratingsQuantity.getD 0)
      secretTour := some (t.secretTour.getD false) }

/-- The `min`/`max` validators on `ratingsAverage` (skipped, as all
non-`required` validators are, when the value is unset). -/
def validRatingsAverage : Option Rat → Bool
  | some r => decide ((1 : Rat) ≤ r) && decide (r ≤ (5 : Rat))
  | none => true

/-- The custom validator on `priceDiscount`: `val < this.price`. -/
def validPriceDiscount (price : Rat) : Option Rat → Bool
  | some v => decide (v < price)
  | none => true

/-- Document validation of the Tour schema: the `required` fields must be
present (and, for strings, non-empty), the name length must lie in
[10, 40], the difficulty in the enumeration, and the bounded-field
validators must pass. -/
def validateTour (d : TourInput) : Bool :=
  match d.name, d.duration, d.maxGroupSize, d.difficulty, d.price,
      d.summary, d.imageCover with
  | some nm, some _, some _, some diff, some price, some sm, some ic =>
    decide (nm ≠ "") && decide (10 ≤ nm.length) && decide (nm.length ≤ 40)
      && decide (diff ≠ "") && ["easy", "medium", "difficult"].contains diff
      && validRatingsAverage d.ratingsAverage
      && validPriceDiscount price d.priceDiscount
      && decide (sm ≠ "") && decide (ic ≠ "")
  | _, _, _, _, _, _, _ => false

/-- Every Tour document that passes *full* schema validation — the
validation run on `create`/`save` — satisfies the three invariants: a
present `priceDiscount` is strictly below the price, the (defaulted)
`ratingsAverage` lies within [1, 5], and the name's length lies within
[10, 40]. -/
theorem tour_schema_invariants (t : TourInput)
    (h : validateTour (applyTourDefaults t) = true) :
    (∀ disc, (applyTourDefaults t).priceDiscount = some disc →
      ∃ p, (applyTourDefaults t).price = some p ∧ disc < p)
    ∧ (∃ r, (applyTourDefaults t).ratingsAverage = some r ∧ 1 ≤ r ∧ r ≤ 5)
    ∧ (∃ nm, (applyTourDefaults t).name = some nm
        ∧ 10 ≤ nm.length ∧ nm.length ≤ 40) := by
  have hra : ∃ r, (applyTourDefaults t).ratingsAverage = some r :=
    ⟨t.ratingsAverage.getD ratingsAverageDefault, rfl⟩
  unfold validateTour at h
  split at h
  case h_2 => exact absurd h (by simp)
  case h_1 nm d1 d2 diff price sm ic hn hdu hmg hdf hpr hsm hic =>
    simp only [Bool.and_eq_true, decide_eq_true_eq] at h
    obtain ⟨⟨⟨⟨⟨⟨⟨⟨hne, hlen10⟩, hlen40⟩, hdne⟩, hcts⟩, hra'⟩, hpd⟩, hsmne⟩, hicne⟩ := h
    refine ⟨?_, ?_, ?_⟩
    · intro disc hdisc
      rw [hdisc] at hpd
      simp only [validPriceDiscount, decide_eq_true_eq] at hpd
      exact ⟨price, hpr, hpd⟩
    · obtain ⟨r, hr⟩ := hra
      rw [hr] at hra'
      simp only [validRatingsAverage, Bool.and_eq_true, decide_eq_true_eq] at hra'
      exact ⟨r, hr, hra'⟩
    · exact ⟨nm, hn, hlen10, hlen40⟩

/-- A concrete valid Tour payload. -/
def sampleTour : TourInput :=
  { name := some "The Forest Hiker"
    duration := some 5
    maxGroupSize := some 25
    difficulty := some "easy"
    ratingsAverage := none
    ratingsQuantity := none
    price := some 397
    priceDiscount := some 100
    summary := some "Breathtaking hike through the Canadian Banff National Park"
    imageCover := some "tour-1-cover.jpg"
    secretTour := none }

/-! ### The update path

`updateTourById` (`src/unnamed/part_006` line 156) calls
`Tour.findByIdAndUpdate(req.params.id, req.body, { new: true,
runValidators: true })`.  Update validators re-run only the *updated*
paths, and in a custom validator `this` is the query, not the document —
the schema's own comment notes that `this` refers to the current document
"only when we are creating a new document".  So the `priceDiscount`
validator compares `val < undefined` on updates (false for every value,
as every JS comparison with `undefined` is), and validators of untouched
paths — `priceDiscount` in particular when only `price` changes — do not
run at all. -/

/-- The paths present in an update body (`none` = path absent from the
update; unsetting a path via `$unset` is not part of this API's surface
and is not modelled). -/
structure TourUpdate where
  name : Option String
  duration : Option Rat
  maxGroupSize : Option Rat
  difficulty : Option String
  ratingsAverage : Option Rat
  ratingsQuantity : Option Rat
  price : Option Rat
  priceDiscount : Option Rat
  summary : Option String
  imageCover : Option String
  secretTour : Option Bool
  deriving DecidableEq, Repr

/-- Update validation under `runValidators: true`: each updated path runs
its validators (with the trim setter applied to the name first); the
`priceDiscount` validator's `this.price` is `undefined` on the update
path, so `val < undefined` is false for every supplied value. -/
def validateTourUpdate (upd : TourUpdate) : Bool :=
  (match upd.name with
   | some nm =>
     let nm := String.mk (trimChars nm.data)
     decide (nm ≠ "") && decide (10 ≤ nm.length) && decide (nm.length ≤ 40)
   | none => true)
  && (match upd.difficulty with
      | some diff => decide (diff ≠ "") && ["easy", "medium", "difficult"].contains diff
      | none => true)
  && validRatingsAverage upd.ratingsAverage
  && (match upd.priceDiscount with
      | some _ => false
      | none => true)
  && (match upd.summary with
      | some sm => decide (sm ≠ "")
      | none => true)
  && (match upd.imageCover with
      | some ic => decide (ic ≠ "")
      | none => true)

/-- Overwrite a stored field with the updated path, when present. -/
def overwriteWith {α : Type} (new : Option α) (old : Option α) : Option α :=
  match new with
  | some v => some v
  | none => old

/-- The stored document after a `findByIdAndUpdate` write: updated paths
overwrite (the name through its trim setter), untouched paths keep their
stored values. -/
def applyTourUpdate (d : TourInput) (upd : TourUpdate) : TourInput :=
  { name := overwriteWith (upd.name.map (fun s => String.mk (trimChars s.data))) d.name
    duration := overwriteWith upd.duration d.duration
    maxGroupSize := overwriteWith upd.maxGroupSize d.maxGroupSize
    difficulty := overwriteWith upd.difficulty d.difficulty
    ratingsAverage := overwriteWith upd.ratingsAverage d.ratingsAverage
    ratingsQuantity := overwriteWith upd.ratingsQuantity d.ratingsQuantity
    price := overwriteWith upd.price d.price
    priceDiscount := overwriteWith upd.priceDiscount d.priceDiscount
    summary := overwriteWith upd.summary d.summary
    imageCover := overwriteWith upd.imageCover d.imageCover
    secretTour := overwriteWith upd.secretTour d.secretTour }

/-- `Tour.findByIdAndUpdate(id, body, { runValidators: true })` applied to
the stored document `d`: the update is written only when the update
validators accept it. -/
def findByIdAndUpdate (d : TourInput) (upd : TourUpdate) : Option TourInput :=
  if validateTourUpdate upd = true then some (applyTourUpdate d upd) else none

/-- A stored tour with a valid discount: price 100, discount 90. -/
def discountedTour : TourInput :=
  { name := some "The Discounted Hiker"
    duration := some 5
    maxGroupSize := some 25
    difficulty := some "easy"
    ratingsAverage := none
    ratingsQuantity := none
    price := some 100
    priceDiscount := some 90
    summary := some "A heavily discounted valley crossing"
    imageCover := some "tour-2-cover.jpg"
    secretTour := none }

/-- An update body touching only the price, lowering it to 50. -/
def priceLoweringUpdate : TourUpdate :=
  { name := none
    duration := none
    maxGroupSize := none
    difficulty := none
    ratingsAverage := none
    ratingsQuantity := none
    price := some 50
    priceDiscount := none
    summary := none
    imageCover := none
    secretTour := none }

/-- An update body touching only the rating average, setting it to 3. -/
def ratingsOnlyUpdate : TourUpdate :=
  { priceLoweringUpdate with price := none, ratingsAverage := some (3 : Rat) }

/-- **C8 (counterexample).** The discount invariant is not enforced on
every validated update: a stored tour with price 100 and discount 90
passes full validation, yet the validated update `{ price: 50 }` —
accepted by the update validators, which never re-run the untouched
`priceDiscount` path — leaves a stored record with discount 90 above
price 50. -/
theorem tour_discount_update_counterexample :
    validateTour (applyTourDefaults discountedTour) = true
    ∧ findByIdAndUpdate (applyTourDefaults discountedTour) priceLoweringUpdate =
        some (applyTourUpdate (applyTourDefaults discountedTour) priceLoweringUpdate)
    ∧ (applyTourUpdate (applyTourDefaults discountedTour) priceLoweringUpdate).price =
        some 50
    ∧ (applyTourUpdate (applyTourDefaults discountedTour) priceLoweringUpdate).priceDiscount =
        some 90
    ∧ ¬((90 : Rat) < 50) :=
  ⟨by decide, by decide, by decide, by decide, by decide⟩

/-- **C8 (amended).** Every Tour document that passes full schema
validation — run on every create/save — satisfies the three invariants
(present discount strictly below price, defaulted rating average in
[1, 5], name length in [10, 40]).  A validated update
(`runValidators: true`) re-validates only its updated paths: an updated
rating average or name is bounded exactly as on create, and an update
*touching* `priceDiscount` is always rejected (its validator's
`this.price` is `undefined` there); but an update leaving `priceDiscount`
untouched preserves the stored discount unchecked — in particular,
lowering `price` below an existing discount is accepted, so the
discount-below-price invariant holds on create/save but is not maintained
across every validated update. -/
theorem tour_invariants_create_and_validated_update :
    (∀ t : TourInput, validateTour (applyTourDefaults t) = true →
      (∀ disc, (applyTourDefaults t).priceDiscount = some disc →
        ∃ p, (applyTourDefaults t).price = some p ∧ disc < p)
      ∧ (∃ r, (applyTourDefaults t).ratingsAverage = some r ∧ 1 ≤ r ∧ r ≤ 5)
      ∧ (∃ nm, (applyTourDefaults t).name = some nm
          ∧ 10 ≤ nm.length ∧ nm.length ≤ 40))
    ∧ (∀ (d : TourInput) (upd : TourUpdate) (d' : TourInput),
        findByIdAndUpdate d upd = some d' →
        (∀ r, upd.ratingsAverage = some r →
          d'.ratingsAverage = some r ∧ 1 ≤ r ∧ r ≤ 5)
        ∧ (∀ nm, upd.name = some nm →
          d'.name = some (String.mk (trimChars nm.data))
          ∧ 10 ≤ (String.mk (trimChars nm.data)).length
          ∧ (String.mk (trimChars nm.data)).length ≤ 40)
        ∧ upd.priceDiscount = none
        ∧ d'.priceDiscount = d.priceDiscount) := by
  refine ⟨fun t h => tour_schema_invariants t h, ?_⟩
  intro d upd d' hupd
  unfold findByIdAndUpdate at hupd
  split at hupd
  case isFalse => exact absurd hupd (by simp)
  case isTrue hval =>
    obtain rfl : applyTourUpdate d upd = d' := Option.some.inj hupd
    unfold validateTourUpdate at hval
    simp only [Bool.and_eq_true] at hval
    obtain ⟨⟨⟨⟨⟨hnm, hdiff⟩, hra⟩, hpd⟩, hsm⟩, hic⟩ := hval
    have hnone : upd.priceDiscount = none := by
      cases hq : upd.priceDiscount with
      | none => rfl
      | some w => rw [hq] at hpd; simp at hpd
    refine ⟨?_, ?_, hnone, by simp [applyTourUpdate, overwriteWith, hnone]⟩
    · intro r hr
      refine ⟨by simp [applyTourUpdate, overwriteWith, hr], ?_⟩
      rw [hr] at hra
      simpa [validRatingsAverage, Bool.and_eq_true, decide_eq_true_eq] using hra
    · intro nm hnm'
      rw [hnm'] at hnm
      simp only [Bool.and_eq_true, decide_eq_true_eq] at hnm
      exact ⟨by simp [applyTourUpdate, overwriteWith, hnm'], hnm.1.2, hnm.2⟩

/-- Concrete instantiation of `tour_invariants_create_and_validated_update`:
the sample tour validates in full (with the defaulted 4.5 rating in
bounds), and a validated ratings-only update stores the bounded new
rating of 3. -/
theorem tour_invariants_create_and_validated_update_witness :
    (∃ r, (applyTourDefaults sampleTour).ratingsAverage = some r
      ∧ 1 ≤ r ∧ r ≤ 5)
    ∧ (applyTourUpdate (applyTourDefaults sampleTour) ratingsOnlyUpdate).ratingsAverage =
        some (3 : Rat)
    ∧ (1 : Rat) ≤ 3 ∧ (3 : Rat) ≤ 5 := by
  have hupd : findByIdAndUpdate (applyTourDefaults sampleTour) ratingsOnlyUpdate =
      some (applyTourUpdate (applyTourDefaults sampleTour) ratingsOnlyUpdate) := by
    decide
  have h3 := (tour_invariants_create_and_validated_update.2
    (applyTourDefaults sampleTour) ratingsOnlyUpdate
    (applyTourUpdate (applyTourDefaults sampleTour) ratingsOnlyUpdate) hupd).1
    (3 : Rat) rfl
  exact ⟨(tour_invariants_create_and_validated_update.1 sampleTour (by decide)).2.1,
    h3.1, h3.2⟩

end Natours
